import Mathlib

/-!
Verification of the py-bike-fit geometry engine (src/pybikefit.py).

The Python source computes the 2D layout of a bicycle frame with
floating-point arithmetic; we embed it over the real numbers.  Python's
fallible numeric primitives are modelled explicitly:
math.sqrt raises ValueError (a math domain error) on a negative argument,
and float division raises ZeroDivisionError when the denominator is zero,
so both are embedded as functions into Except.
-/

/-- The exceptions the numeric primitives of the source can raise. -/
inductive PyErr
  /-- ValueError: math domain error, raised by math.sqrt on a negative. -/
  | valueError
  /-- ZeroDivisionError: float division by zero. -/
  | zeroDivisionError
  deriving DecidableEq

/-- math.radians: degrees to radians. -/
noncomputable def radians (d : ℝ) : ℝ := d * Real.pi / 180

/-- math.sqrt: raises ValueError (math domain error) on a negative argument. -/
noncomputable def pySqrt (x : ℝ) : Except PyErr ℝ :=
  if x < 0 then .error .valueError else .ok (Real.sqrt x)

/-- Python float division: raises ZeroDivisionError when the denominator is 0. -/
noncomputable def pyDiv (a b : ℝ) : Except PyErr ℝ :=
  if b = 0 then .error .zeroDivisionError else .ok (a / b)

/-- get_vector_coords (src/pybikefit.py:50-60): endpoint coordinates of a
vector from (x1, y1) of the given magnitude at the given angle in degrees,
using direction pi - radians(angle).  Returns ((x1, x2), (y1, y2)),
embedding the source's pair of lists [x1, x2], [y1, y2]. -/
noncomputable def get_vector_coords (x1 y1 length angle_deg : ℝ) :
    (ℝ × ℝ) × (ℝ × ℝ) :=
  ((x1, x1 + length * Real.cos (Real.pi - radians angle_deg)),
   (y1, y1 + length * Real.sin (Real.pi - radians angle_deg)))

/-- get_distance_between_coords (src/pybikefit.py:63-71): Euclidean distance.
The sqrt argument is a sum of squares, hence never negative, so the
source's math.sqrt cannot raise here and the embedding is total. -/
noncomputable def get_distance_between_coords (x1 y1 x2 y2 : ℝ) : ℝ :=
  Real.sqrt ((x2 - x1) ^ 2 + (y2 - y1) ^ 2)

/-- The numeric fields of Bicycle.__init__ (src/pybikefit.py:101-133), with
the source's default values. -/
structure Bike where
  bb_drop : ℝ := 75
  bb_diameter : ℝ := 34.8
  chainstay_length : ℝ := 450
  fork_length : ℝ := 405
  fork_offset : ℝ := 50
  head_tube_angle : ℝ := 71.5
  head_tube_length : ℝ := 205
  seat_tube_angle : ℝ := 72.5
  seat_tube_length : ℝ := 560
  stem_angle : ℝ := 0
  stem_length : ℝ := 50
  wheelbase : ℝ := 1072.6
  wheel_diameter : ℝ := 700.0

/-- The all-defaults bicycle (name="Example" in the source). -/
def example_bike : Bike := {}

/-- Rider (src/pybikefit.py:74-84), with the source's default values. -/
structure Rider where
  saddle_height : ℝ := 810
  saddle_length : ℝ := 280
  saddle_set_back : ℝ := 22

/-- BottomBracket.__init__ (src/pybikefit.py:189-192): the bottom-bracket
coordinate [0, wheel_diameter / 2 - drop]. -/
noncomputable def bb_coord (b : Bike) : ℝ × ℝ :=
  (0, b.wheel_diameter / 2 - b.bb_drop)

/-- Bicycle._rear_hub_coords (src/pybikefit.py:338-341):
x = -sqrt(chainstay_length^2 - bb_drop^2), y = wheel_diameter / 2.
math.sqrt raises when the argument is negative. -/
noncomputable def rear_hub_coords (b : Bike) : Except PyErr (ℝ × ℝ) :=
  (pySqrt (b.chainstay_length ^ 2 - b.bb_drop ^ 2)).map
    fun s => (-s, b.wheel_diameter / 2)

/-- Bicycle._front_hub_coords (src/pybikefit.py:286-288): the rear hub
shifted right by the wheelbase, same y. -/
noncomputable def front_hub_coords (b : Bike) : Except PyErr (ℝ × ℝ) :=
  (rear_hub_coords b).map fun rh => (rh.1 + b.wheelbase, rh.2)

/-- Bicycle._head_tube_coords (src/pybikefit.py:306-331): first the x-offset
fork_offset / cos(radians(90 - head_tube_angle)) (the division happens
before the rear-hub computation in the source), then two chained
get_vector_coords calls for the head-tube bottom and top. -/
noncomputable def head_tube_coords (b : Bike) :
    Except PyErr ((ℝ × ℝ) × (ℝ × ℝ)) :=
  (pyDiv b.fork_offset (Real.cos (radians (90 - b.head_tube_angle)))).bind
    fun x_offset =>
      (rear_hub_coords b).map fun rh =>
        let head_tube_x_origin := rh.1 + b.wheelbase - x_offset
        let bottom := get_vector_coords head_tube_x_origin rh.2
          b.fork_length b.head_tube_angle
        get_vector_coords bottom.1.2 bottom.2.2
          b.head_tube_length b.head_tube_angle

/-- Bicycle._seat_tube_coords (src/pybikefit.py:352-354): a single
get_vector_coords call from the bottom-bracket coordinate. -/
noncomputable def seat_tube_coords (b : Bike) : (ℝ × ℝ) × (ℝ × ℝ) :=
  get_vector_coords (bb_coord b).1 (bb_coord b).2
    b.seat_tube_length b.seat_tube_angle

/-- The data of Bicycle.Saddle.__init__ (src/pybikefit.py:241-253). -/
structure Saddle where
  saddle_height : ℝ
  saddle_length : ℝ
  saddle_set_back : ℝ
  seat_tube_angle : ℝ
  bb_coords : ℝ × ℝ

/-- The layout state established by Bicycle.__init__: bottom bracket,
wheel (hub) centers, and the optional saddle. -/
structure BicycleLayout where
  bb : ℝ × ℝ
  rear_wheel : ℝ × ℝ
  front_wheel : ℝ × ℝ
  saddle : Option Saddle

/-- Bicycle.__init__ (src/pybikefit.py:101-159): builds the bottom bracket,
the rear and front wheels (each anchored at its hub coordinate), and the
saddle exactly when a rider was supplied (the source's `if rider:` test,
line 153; a Rider object is always truthy). -/
noncomputable def bicycle_init (b : Bike) (rider : Option Rider) :
    Except PyErr BicycleLayout :=
  (rear_hub_coords b).bind fun rear =>
    (front_hub_coords b).map fun front =>
      { bb := bb_coord b
        rear_wheel := rear
        front_wheel := front
        saddle := rider.map fun r =>
          { saddle_height := r.saddle_height
            saddle_length := r.saddle_length
            saddle_set_back := r.saddle_set_back
            seat_tube_angle := b.seat_tube_angle
            bb_coords := bb_coord b } }

/-! ## Evaluation of the example bicycle (all source defaults) -/

/-- Evaluation: the rear hub of the default bicycle is
(-sqrt(450^2 - 75^2), 700/2) = (-sqrt 196875, 350). -/
theorem rear_hub_example :
    rear_hub_coords example_bike = .ok (-Real.sqrt 196875, 350) := by
  unfold rear_hub_coords pySqrt example_bike
  norm_num [Except.map]

/-- Evaluation: the front hub of the default bicycle is the rear hub
shifted right by the default wheelbase 1072.6. -/
theorem front_hub_example :
    front_hub_coords example_bike = .ok (-Real.sqrt 196875 + 1072.6, 350) := by
  unfold front_hub_coords
  rw [rear_hub_example]
  norm_num [Except.map, example_bike]

/-! ## The claims -/

/-- Claim C1: at head_tube_angle = 0 the head-tube computation divides
fork_offset by cos(radians(90)), whose exact value is 0.  The source has
no DomainError path at all: under exact arithmetic the unguarded division
raises ZeroDivisionError (and under binary64 the divisor is the nonzero
rounding residue of cos(pi/2), about 6.12e-17, so the actual program
raises nothing and propagates a huge finite x-offset into the layout).
Either way the claimed DomainError failure does not happen. -/
theorem claim_C1_head_tube_zero_angle :
    head_tube_coords { head_tube_angle := 0 } = .error .zeroDivisionError := by
  have hrad : radians ((90 : ℝ) - 0) = Real.pi / 2 := by
    unfold radians; ring
  have hcos : Real.cos (radians ((90 : ℝ) - 0)) = 0 := by
    rw [hrad, Real.cos_pi_div_two]
  unfold head_tube_coords pyDiv
  simp only [hcos]
  norm_num [Except.bind]

/-- Claim C2, counterexample: with chainstay_length = -5 < bb_drop = 1 the
sqrt argument is (-5)^2 - 1^2 = 24 >= 0, so the computation does not fail
at all: it returns the coordinate (-sqrt 24, 350), refuting the claim that
every input with chainstay_length < bb_drop fails with a DomainError. -/
theorem claim_C2_counterexample :
    ({ bb_drop := 1, chainstay_length := -5 } : Bike).chainstay_length <
      ({ bb_drop := 1, chainstay_length := -5 } : Bike).bb_drop ∧
    rear_hub_coords { bb_drop := 1, chainstay_length := -5 } =
      .ok (-Real.sqrt 24, 350) := by
  constructor
  · norm_num
  · unfold rear_hub_coords pySqrt
    norm_num [Except.map]

/-- Claim C2, amended: for every input with
chainstay_length^2 < bb_drop^2 — the condition the code actually branches
on, equivalent to chainstay_length < bb_drop when both are non-negative —
the rear-hub computation fails with the math domain error (Python's
ValueError from math.sqrt), and never yields NaN or a complex number. -/
theorem claim_C2_amended (b : Bike)
    (h : b.chainstay_length ^ 2 < b.bb_drop ^ 2) :
    rear_hub_coords b = .error .valueError := by
  unfold rear_hub_coords pySqrt
  rw [if_pos (by linarith : b.chainstay_length ^ 2 - b.bb_drop ^ 2 < 0)]
  rfl

/-- Claim C2, witness: chainstay_length = 50 against the default
bb_drop = 75 satisfies the hypothesis and fails with the domain error. -/
theorem claim_C2_amended_witness :
    ({ chainstay_length := 50 } : Bike).chainstay_length ^ 2 <
      ({ chainstay_length := 50 } : Bike).bb_drop ^ 2 ∧
    rear_hub_coords { chainstay_length := 50 } = .error .valueError :=
  ⟨by norm_num, claim_C2_amended _ (by norm_num)⟩

/-- Claim C3, counterexample: with bb_drop = -5 the input satisfies
chainstay_length = 1 ≥ bb_drop, yet the sqrt argument 1^2 - (-5)^2 = -24
is negative, so the computation raises the math domain error instead of
producing the claimed coordinate. -/
theorem claim_C3_counterexample :
    ({ bb_drop := -5, chainstay_length := 1 } : Bike).bb_drop ≤
      ({ bb_drop := -5, chainstay_length := 1 } : Bike).chainstay_length ∧
    rear_hub_coords { bb_drop := -5, chainstay_length := 1 } =
      .error .valueError := by
  constructor
  · norm_num
  · unfold rear_hub_coords pySqrt
    norm_num [Except.map]

/-- Claim C3, amended: for every input with
bb_drop^2 ≤ chainstay_length^2 — the condition the code actually branches
on, equivalent to chainstay_length ≥ bb_drop when both are non-negative —
the rear hub equals (-sqrt(chainstay_length^2 - bb_drop^2),
wheel_diameter / 2), and when chainstay_length = bb_drop the rear-hub
x-coordinate is 0. -/
theorem claim_C3_amended (b : Bike)
    (h : b.bb_drop ^ 2 ≤ b.chainstay_length ^ 2) :
    rear_hub_coords b =
      .ok (-Real.sqrt (b.chainstay_length ^ 2 - b.bb_drop ^ 2),
        b.wheel_diameter / 2) ∧
    (b.chainstay_length = b.bb_drop →
      -Real.sqrt (b.chainstay_length ^ 2 - b.bb_drop ^ 2) = 0) := by
  constructor
  · unfold rear_hub_coords pySqrt
    rw [if_neg (by linarith : ¬ b.chainstay_length ^ 2 - b.bb_drop ^ 2 < 0)]
    rfl
  · intro he
    rw [he]
    simp

/-- Claim C3, witness: the default bicycle (chainstay 450, drop 75)
satisfies the hypothesis and yields the claimed rear hub. -/
theorem claim_C3_amended_witness :
    example_bike.bb_drop ^ 2 ≤ example_bike.chainstay_length ^ 2 ∧
    (rear_hub_coords example_bike =
      .ok (-Real.sqrt (example_bike.chainstay_length ^ 2 -
        example_bike.bb_drop ^ 2), example_bike.wheel_diameter / 2) ∧
    (example_bike.chainstay_length = example_bike.bb_drop →
      -Real.sqrt (example_bike.chainstay_length ^ 2 -
        example_bike.bb_drop ^ 2) = 0)) :=
  ⟨by norm_num [example_bike], claim_C3_amended _ (by norm_num [example_bike])⟩

/-- Claim C4: whenever the rear and front hubs are both computed,
front_hub.x - rear_hub.x equals the wheelbase exactly and
front_hub.y equals rear_hub.y; in particular this holds for every valid
input where the rear-hub square root succeeds. -/
theorem claim_C4_front_hub (b : Bike) (rx ry fx fy : ℝ)
    (hr : rear_hub_coords b = .ok (rx, ry))
    (hf : front_hub_coords b = .ok (fx, fy)) :
    fx - rx = b.wheelbase ∧ fy = ry := by
  unfold front_hub_coords at hf
  rw [hr] at hf
  simp [Except.map] at hf
  obtain ⟨h1, h2⟩ := hf
  constructor
  · linarith
  · exact h2.symm

/-- Claim C4, witness: the default bicycle's hubs, with
front_hub.x - rear_hub.x = 1072.6 = wheelbase and equal y. -/
theorem claim_C4_front_hub_witness :
    rear_hub_coords example_bike = .ok (-Real.sqrt 196875, 350) ∧
    front_hub_coords example_bike = .ok (-Real.sqrt 196875 + 1072.6, 350) ∧
    ((-Real.sqrt 196875 + 1072.6) - -Real.sqrt 196875 =
      example_bike.wheelbase ∧ (350 : ℝ) = 350) :=
  ⟨rear_hub_example, front_hub_example,
    claim_C4_front_hub example_bike _ _ _ _ rear_hub_example front_hub_example⟩

/-- Claim C5: for non-negative bb_drop ≤ chainstay_length, the Euclidean
distance between the computed rear hub and the bottom-bracket coordinate
equals chainstay_length exactly (Pythagorean consistency). -/
theorem claim_C5_chainstay_distance (b : Bike) (rx ry : ℝ)
    (h0 : 0 ≤ b.bb_drop) (h1 : b.bb_drop ≤ b.chainstay_length)
    (hr : rear_hub_coords b = .ok (rx, ry)) :
    get_distance_between_coords rx ry (bb_coord b).1 (bb_coord b).2 =
      b.chainstay_length := by
  have hcs : (0 : ℝ) ≤ b.chainstay_length := le_trans h0 h1
  have harg : (0 : ℝ) ≤ b.chainstay_length ^ 2 - b.bb_drop ^ 2 := by nlinarith
  unfold rear_hub_coords pySqrt at hr
  rw [if_neg (by linarith : ¬ b.chainstay_length ^ 2 - b.bb_drop ^ 2 < 0)] at hr
  simp [Except.map] at hr
  obtain ⟨hx, hy⟩ := hr
  unfold get_distance_between_coords bb_coord
  have hsq : Real.sqrt (b.chainstay_length ^ 2 - b.bb_drop ^ 2) ^ 2 =
      b.chainstay_length ^ 2 - b.bb_drop ^ 2 := Real.sq_sqrt harg
  have : ((0 : ℝ) - rx) ^ 2 +
      ((b.wheel_diameter / 2 - b.bb_drop) - ry) ^ 2 =
      b.chainstay_length ^ 2 := by
    rw [← hx, ← hy]
    ring_nf
    nlinarith [hsq]
  rw [this, Real.sqrt_sq hcs]

/-- Claim C5, witness: the default bicycle, whose rear-hub-to-bottom-bracket
distance is exactly the chainstay length 450. -/
theorem claim_C5_chainstay_distance_witness :
    (0 : ℝ) ≤ example_bike.bb_drop ∧
    example_bike.bb_drop ≤ example_bike.chainstay_length ∧
    rear_hub_coords example_bike = .ok (-Real.sqrt 196875, 350) ∧
    get_distance_between_coords (-Real.sqrt 196875) 350
      (bb_coord example_bike).1 (bb_coord example_bike).2 =
      example_bike.chainstay_length :=
  ⟨by norm_num [example_bike], by norm_num [example_bike], rear_hub_example,
    claim_C5_chainstay_distance example_bike _ _ (by norm_num [example_bike])
      (by norm_num [example_bike]) rear_hub_example⟩

/-- Claim C6: whenever the constructor succeeds, the layout's saddle is
present if and only if a rider was supplied. -/
theorem claim_C6_saddle_iff_rider (b : Bike) (rider : Option Rider)
    (l : BicycleLayout) (h : bicycle_init b rider = .ok l) :
    l.saddle.isSome ↔ rider.isSome := by
  unfold bicycle_init at h
  cases hre : rear_hub_coords b with
  | error e => rw [hre] at h; simp [Except.bind] at h
  | ok rear =>
    cases hfr : front_hub_coords b with
    | error e => rw [hre, hfr] at h; simp [Except.bind, Except.map] at h
    | ok front =>
      rw [hre, hfr] at h
      simp [Except.bind, Except.map] at h
      rw [← h]
      cases rider <;> simp

/-- Claim C6, witness: the default bicycle with no rider yields the
concrete layout with saddle = none. -/
theorem claim_C6_saddle_iff_rider_witness :
    bicycle_init example_bike none =
      .ok ⟨(0, 275), (-Real.sqrt 196875, 350),
        (-Real.sqrt 196875 + 1072.6, 350), none⟩ ∧
    ((none : Option Saddle).isSome ↔ (none : Option Rider).isSome) := by
  have h : bicycle_init example_bike none =
      .ok ⟨(0, 275), (-Real.sqrt 196875, 350),
        (-Real.sqrt 196875 + 1072.6, 350), none⟩ := by
    unfold bicycle_init
    rw [rear_hub_example, front_hub_example]
    norm_num [Except.bind, Except.map, bb_coord, example_bike]
  exact ⟨h, claim_C6_saddle_iff_rider example_bike none _ h⟩

/-- Claim C7: a zero-length vector is a no-op: for every origin and every
angle, the endpoint of get_vector_coords with length 0 is the origin. -/
theorem claim_C7_zero_vector (x1 y1 a : ℝ) :
    (get_vector_coords x1 y1 0 a).1.2 = x1 ∧
    (get_vector_coords x1 y1 0 a).2.2 = y1 := by
  unfold get_vector_coords
  norm_num

/-- Claim C8: the distance function is symmetric, and it is zero exactly
when the two points coincide. -/
theorem claim_C8_distance_symm_definite (x1 y1 x2 y2 : ℝ) :
    get_distance_between_coords x1 y1 x2 y2 =
      get_distance_between_coords x2 y2 x1 y1 ∧
    (get_distance_between_coords x1 y1 x2 y2 = 0 ↔ x1 = x2 ∧ y1 = y2) := by
  unfold get_distance_between_coords
  constructor
  · ring_nf
  · rw [Real.sqrt_eq_zero']
    constructor
    · intro h
      have h1 : (x2 - x1) ^ 2 = 0 := by
        nlinarith [sq_nonneg (x2 - x1), sq_nonneg (y2 - y1)]
      have h2 : (y2 - y1) ^ 2 = 0 := by
        nlinarith [sq_nonneg (x2 - x1), sq_nonneg (y2 - y1)]
      constructor
      · have := sub_eq_zero.mp (pow_eq_zero_iff (n := 2) (by norm_num) |>.mp h1)
        exact this.symm
      · have := sub_eq_zero.mp (pow_eq_zero_iff (n := 2) (by norm_num) |>.mp h2)
        exact this.symm
    · rintro ⟨h1, h2⟩
      rw [h1, h2]
      norm_num

/-- Claim C9: get_vector_coords starts exactly at the given origin — the
first x- and y-coordinates of the returned segment are the inputs — and
consequently a derived tube such as the seat tube is anchored at the point
it was derived from (the bottom bracket). -/
theorem claim_C9_vector_anchor (x1 y1 len a : ℝ) (b : Bike) :
    (get_vector_coords x1 y1 len a).1.1 = x1 ∧
    (get_vector_coords x1 y1 len a).2.1 = y1 ∧
    (seat_tube_coords b).1.1 = (bb_coord b).1 ∧
    (seat_tube_coords b).2.1 = (bb_coord b).2 :=
  ⟨rfl, rfl, rfl, rfl⟩

/-- Claim C10: every successfully computed rear-hub x-coordinate is ≤ 0,
while the bottom bracket sits at (0, wheel_diameter / 2 - bb_drop): the
rear hub never lies to the right of the bottom bracket. -/
theorem claim_C10_rear_hub_nonpositive (b : Bike) (x y : ℝ)
    (h : rear_hub_coords b = .ok (x, y)) :
    x ≤ 0 ∧ bb_coord b = (0, b.wheel_diameter / 2 - b.bb_drop) := by
  refine ⟨?_, rfl⟩
  unfold rear_hub_coords pySqrt at h
  by_cases hc : b.chainstay_length ^ 2 - b.bb_drop ^ 2 < 0
  · rw [if_pos hc] at h
    simp [Except.map] at h
  · rw [if_neg hc] at h
    simp [Except.map] at h
    rw [← h.1]
    exact neg_nonpos.mpr (Real.sqrt_nonneg _)

/-- Claim C10, witness: the default bicycle's rear hub sits at
x = -sqrt 196875 ≤ 0, left of the bottom bracket at x = 0. -/
theorem claim_C10_rear_hub_nonpositive_witness :
    rear_hub_coords example_bike = .ok (-Real.sqrt 196875, 350) ∧
    (-Real.sqrt 196875 ≤ 0 ∧ bb_coord example_bike =
      (0, example_bike.wheel_diameter / 2 - example_bike.bb_drop)) :=
  ⟨rear_hub_example,
    claim_C10_rear_hub_nonpositive example_bike _ _ rear_hub_example⟩
